import Mathlib

/-!
Shallow embedding of the Linux loop block driver (drivers/block/loop.c) for
verification of its natural-language specification.  Kernel machine integers
are modelled as Nat (unsigned) or Int (signed) with explicit truncation where
overflow matters; fallible kernel functions return an error value of type
Errno paired with the (possibly partially mutated) device state, mirroring
the in-place mutation of the C code.
-/

/-- Kernel error numbers used by the driver (negated `-Exxx` return values). -/
inductive Errno where
  | EINVAL
  | ENOMEM
  | ENXIO
  | EOVERFLOW
  | EOPNOTSUPP
  | EBUSY
  | EBADF
  | EEXIST
  | EIO
  | EAGAIN
  | EPERM
  | EFAULT
deriving DecidableEq, Repr

/-- Modelled from the spec: constants of include/uapi/linux/loop.h, which is
not part of the excerpt.  The spec describes "a fixed-size table indexed by
small integer identifier" with a reserved identity slot 0; the standard uapi
values are used: MAX_LO_CRYPT = 20. -/
def MAX_LO_CRYPT : Nat := 20

/-- Modelled from the spec: LO_KEY_SIZE of the uapi header (32). -/
def LO_KEY_SIZE : Nat := 32

/-- Modelled from the spec: LO_NAME_SIZE of the uapi header (64). -/
def LO_NAME_SIZE : Nat := 64

/-- Modelled from the spec: encryption type identifiers of the uapi header. -/
def LO_CRYPT_NONE : Nat := 0

def LO_CRYPT_XOR : Nat := 1

def LO_CRYPT_CRYPTOAPI : Nat := 18

/-- Modelled from the spec: flag bits of the uapi header. -/
def LO_FLAGS_READ_ONLY : Nat := 1

def LO_FLAGS_AUTOCLEAR : Nat := 4

def LO_FLAGS_PARTSCAN : Nat := 8

def LO_FLAGS_DIRECT_IO : Nat := 16

/-- Modelled from the spec: flags acceptable to LOOP_CONFIGURE
(READ_ONLY | AUTOCLEAR | PARTSCAN | DIRECT_IO). -/
def LOOP_CONFIGURE_SETTABLE_FLAGS : Nat :=
  LO_FLAGS_READ_ONLY ||| LO_FLAGS_AUTOCLEAR ||| LO_FLAGS_PARTSCAN |||
    LO_FLAGS_DIRECT_IO

/-- LLONG_MAX, the bound checked on lo_offset / lo_sizelimit assignments. -/
def LLONG_MAX : Nat := 2 ^ 63 - 1

/-- Direction argument of a transfer call (the kernel READ / WRITE values). -/
inductive IOCmd where
  | read
  | write
deriving DecidableEq, Repr

/-- The byte transformation of transfer_xor, starting at in-call byte index
`i`: each byte is XORed with key[(i & 511) % keysize].  The C loop walks
`i = 0 .. size-1`; this recursion carries the running index explicitly. -/
def xorBytes (key : List Nat) (i : Nat) : List Nat → List Nat
  | [] => []
  | b :: rest =>
      (b ^^^ key.getD ((i &&& 511) % key.length) 0) :: xorBytes key (i + 1) rest

/-- transfer_xor of drivers/block/loop.c lines 137-164.  For cmd == READ the
input is the raw (backing-file) page and the output the loop page; for WRITE
the roles swap.  Either way every output byte is the corresponding input byte
XORed with key[(i & 511) % keysize], i counted from 0; the real_block
argument is unused by the C function and is kept here for fidelity. -/
def transfer_xor (key : List Nat) (cmd : IOCmd) (realBlock : Nat)
    (input : List Nat) : List Nat :=
  match cmd, realBlock with
  | _, _ => xorBytes key 0 input

/-- xor_init of loop.c lines 166-171: rejects a zero-size key.
(`lo_encrypt_key_size` is a __u32, so `<= 0` means `== 0`.) -/
def xor_init (keySize : Nat) : Option Errno :=
  if keySize = 0 then some Errno.EINVAL else none

theorem xorBytes_length (key : List Nat) (i : Nat) (l : List Nat) :
    (xorBytes key i l).length = l.length := by
  induction l generalizing i with
  | nil => rfl
  | cons b rest ih => simp [xorBytes, ih]

theorem xorBytes_xorBytes (key : List Nat) (i : Nat) (l : List Nat) :
    xorBytes key i (xorBytes key i l) = l := by
  induction l generalizing i with
  | nil => rfl
  | cons b rest ih =>
      simp [xorBytes, ih, Nat.xor_assoc, Nat.xor_self, Nat.xor_zero]

/-- C10: XOR transform involution.  For every key of positive length, every
buffer and every pair of block numbers, applying the XOR transfer in the
WRITE direction and then in the READ direction (same key, same size) returns
the original buffer byte for byte: the key byte used depends only on the byte
position within the call. -/
theorem c10_xor_involution (key : List Nat) (_h : 0 < key.length)
    (buf : List Nat) (blkW blkR : Nat) :
    transfer_xor key IOCmd.read blkR (transfer_xor key IOCmd.write blkW buf)
      = buf := by
  unfold transfer_xor
  exact xorBytes_xorBytes key 0 buf

theorem c10_xor_involution_witness :
    0 < [7, 11].length ∧
      transfer_xor [7, 11] IOCmd.read 5
        (transfer_xor [7, 11] IOCmd.write 5 [1, 2, 3, 255]) = [1, 2, 3, 255] :=
  ⟨by decide, c10_xor_involution [7, 11] (by decide) [1, 2, 3, 255] 5 5⟩

/-- get_size of loop.c lines 189-208.  loff_t values are Int; the final
`>> 9` on a non-negative loff_t is division by 512. -/
def get_size (offset sizelimit : Int) (fileSize : Int) : Int :=
  let loopsize := fileSize
  let loopsize := if offset > 0 then loopsize - offset else loopsize
  if loopsize < 0 then 0
  else
    let loopsize :=
      if sizelimit > 0 ∧ sizelimit < loopsize then sizelimit else loopsize
    loopsize / 512

/-- The spec's capacity formula, written from its words: file size minus the
offset, clamped below by zero and above by a positive sizelimit, expressed in
512-byte sectors. -/
def spec_capacity (offset sizelimit : Int) (fileSize : Int) : Int :=
  max 0 (if sizelimit > 0 then min sizelimit (fileSize - offset)
         else fileSize - offset) / 512

/-- One entry of the transfer-plugin table (struct loop_func_table).  The
function pointers are modelled by their presence: has_transfer is
`.transfer != NULL`, etc.  The only in-tree init hook is xor_init. -/
structure loop_func_table where
  number : Nat
  has_transfer : Bool
  has_init : Bool
  has_release : Bool
deriving DecidableEq, Repr

/-- none_funcs of loop.c lines 173-175: the identity entry at slot 0, with no
transfer, init or release hooks. -/
def none_funcs : loop_func_table :=
  { number := LO_CRYPT_NONE, has_transfer := false, has_init := false,
    has_release := false }

/-- xor_funcs of loop.c lines 177-181. -/
def xor_funcs : loop_func_table :=
  { number := LO_CRYPT_XOR, has_transfer := true, has_init := true,
    has_release := false }

/-- The initial xfer_funcs table of loop.c lines 184-187: slot 0 = none_funcs,
slot 1 = xor_funcs, the remaining MAX_LO_CRYPT - 2 slots empty. -/
def xfer_funcs_init : List (Option loop_func_table) :=
  [some none_funcs, some xor_funcs] ++ List.replicate (MAX_LO_CRYPT - 2) none

/-- Lifecycle states (enum at the top of loop.c). -/
inductive LoState where
  | Lo_unbound
  | Lo_bound
  | Lo_rundown
  | Lo_deleting
deriving DecidableEq, Repr

/-- The backing file and the properties of it that the driver consults.
`content` is the byte content (i_size is its length for regular files; for
the capacity claims `size` is carried separately as the i_size_read value). -/
structure LoopFile where
  size : Int
  mode_write : Bool
  has_write_iter : Bool
  is_blk : Bool
  has_fallocate : Bool
  backing_max_write_zeroes : Nat
  backing_discard_granularity : Nat
  backing_physical_block_size : Nat
  statfs_ok : Bool
  statfs_bsize : Nat
  fallocate_result : Option Errno
  content : List Nat
deriving DecidableEq, Repr

/-- struct loop_device: the configuration and lifecycle fields the claims are
about.  Pointer-valued fields are Options; `transfer` is `lo->transfer !=
NULL`; `workqueue` is whether lo->workqueue is allocated; `queue_discard`
is QUEUE_FLAG_DISCARD on lo->lo_queue; `capacity` is the disk capacity set
by loop_set_size. -/
structure loop_device where
  lo_state : LoState
  lo_backing_file : Option LoopFile
  lo_offset : Int
  lo_sizelimit : Int
  lo_flags : Nat
  lo_encryption : Option loop_func_table
  transfer : Bool
  lo_encrypt_key_size : Nat
  lo_encrypt_key : List Nat
  lo_file_name : List Nat
  lo_crypt_name : List Nat
  lo_init0 : Nat
  lo_init1 : Nat
  lo_refcnt : Nat
  workqueue : Bool
  queue_discard : Bool
  discard_granularity : Nat
  max_discard_sectors : Nat
  capacity : Int
deriving DecidableEq, Repr

/-- A freshly added, unbound device (loop_add defaults). -/
def loop_device_default : loop_device :=
  { lo_state := LoState.Lo_unbound, lo_backing_file := none, lo_offset := 0,
    lo_sizelimit := 0, lo_flags := 0, lo_encryption := none, transfer := false,
    lo_encrypt_key_size := 0,
    lo_encrypt_key := List.replicate LO_KEY_SIZE 0,
    lo_file_name := List.replicate LO_NAME_SIZE 0,
    lo_crypt_name := List.replicate LO_NAME_SIZE 0,
    lo_init0 := 0, lo_init1 := 0, lo_refcnt := 1, workqueue := false,
    queue_discard := false, discard_granularity := 0,
    max_discard_sectors := 0, capacity := 0 }

/-- struct loop_info64 (uapi): all numeric fields are unsigned; __u64 fields
and __u32 fields are both Nat, bounded by the well-formedness predicate
below where a claim needs the machine width. -/
structure loop_info64 where
  lo_device : Nat
  lo_inode : Nat
  lo_rdevice : Nat
  lo_offset : Nat
  lo_sizelimit : Nat
  lo_number : Nat
  lo_encrypt_type : Nat
  lo_encrypt_key_size : Nat
  lo_flags : Nat
  lo_file_name : List Nat
  lo_crypt_name : List Nat
  lo_encrypt_key : List Nat
  lo_init0 : Nat
  lo_init1 : Nat
deriving DecidableEq, Repr

/-- The fixed-size-array copy of a name field: LO_NAME_SIZE bytes are copied
and the last byte then forced to NUL (loop.c lines 1213-1216). -/
def copy_name (l : List Nat) : List Nat :=
  ((l ++ List.replicate LO_NAME_SIZE 0).take (LO_NAME_SIZE - 1)) ++ [0]

/-- loop_release_xfer of loop.c lines 1131-1145.  Neither in-tree table entry
has a release hook; a registered external plugin's release function is not in
the excerpt and is modelled as succeeding, so err is always 0. -/
def loop_release_xfer (lo : loop_device) : Option Errno × loop_device :=
  match lo.lo_encryption with
  | none => (none, lo)
  | some _ => (none, { lo with transfer := false, lo_encryption := none })

/-- loop_init_xfer of loop.c lines 1147-1166.  try_module_get is modelled as
succeeding for a live table entry; the only in-tree init hook is xor_init
(an external plugin's init is not in the excerpt, modelled as succeeding). -/
def loop_init_xfer (lo : loop_device) (xfer : Option loop_func_table)
    (info : loop_info64) : Option Errno × loop_device :=
  match xfer with
  | none => (none, lo)
  | some x =>
      let err : Option Errno :=
        if x.has_init then
          if x.number = LO_CRYPT_XOR then xor_init info.lo_encrypt_key_size
          else none
        else none
      match err with
      | some e => (some e, lo)
      | none => (none, { lo with lo_encryption := some x })

/-- The xfer selection of loop_set_status_from_info lines 1191-1200: when
lo_encrypt_type is non-zero the table slot must be in range and occupied. -/
def xfer_lookup (tbl : List (Option loop_func_table)) (encType : Nat) :
    Except Errno (Option loop_func_table) :=
  if encType ≠ 0 then
    if encType ≥ MAX_LO_CRYPT then Except.error Errno.EINVAL
    else
      match tbl.getD encType none with
      | none => Except.error Errno.EINVAL
      | some x => Except.ok (some x)
  else Except.ok none

/-- loop_set_status_from_info of loop.c lines 1176-1235, against the transfer
table `tbl`.  Mirrors the C mutation order: the transform is released and
re-initialised and the encryption selection committed before the
offset/sizelimit overflow check, and all remaining fields are then assigned
unconditionally.  Errors return the device as mutated so far. -/
def loop_set_status_from_info (tbl : List (Option loop_func_table))
    (lo : loop_device) (info : loop_info64) : Option Errno × loop_device :=
  if info.lo_encrypt_key_size > LO_KEY_SIZE then (some Errno.EINVAL, lo)
  else
    match loop_release_xfer lo with
    | (some e, lo1) => (some e, lo1)
    | (none, lo1) =>
        match xfer_lookup tbl info.lo_encrypt_type with
        | Except.error e => (some e, lo1)
        | Except.ok xfer =>
            match loop_init_xfer lo1 xfer info with
            | (some e, lo2) => (some e, lo2)
            | (none, lo2) =>
                if info.lo_offset > LLONG_MAX ∨ info.lo_sizelimit > LLONG_MAX
                then (some Errno.EOVERFLOW, lo2)
                else
                  let lo3 := { lo2 with
                    lo_offset := (info.lo_offset : Int),
                    lo_sizelimit := (info.lo_sizelimit : Int),
                    lo_file_name := copy_name info.lo_file_name,
                    lo_crypt_name := copy_name info.lo_crypt_name }
                  let xferNN := xfer.getD none_funcs
                  let lo4 := { lo3 with
                    transfer := xferNN.has_transfer,
                    lo_flags := info.lo_flags,
                    lo_encrypt_key_size := info.lo_encrypt_key_size,
                    lo_init0 := info.lo_init0,
                    lo_init1 := info.lo_init1,
                    lo_encrypt_key :=
                      if info.lo_encrypt_key_size ≠ 0 then
                        (info.lo_encrypt_key.take info.lo_encrypt_key_size)
                          ++ lo3.lo_encrypt_key.drop info.lo_encrypt_key_size
                      else lo3.lo_encrypt_key }
                  (none, lo4)

/-- struct loop_config (the LOOP_CONFIGURE argument): the fd is modelled by
the resolved file carried in the environment below. -/
structure loop_config where
  info : loop_info64
  block_size : Nat
deriving DecidableEq, Repr

/-- Environment of one loop_configure call: the outcome of the kernel
services it consults.  `file` is the fget(config->fd) result (none = bad fd);
`mode_write` is FMODE_WRITE of the opening mode; `validate_err` is the
loop_validate_file verdict; `wq_alloc_ok` is whether alloc_workqueue
succeeds. -/
structure ConfigEnv where
  file : Option LoopFile
  mode_write : Bool
  validate_err : Option Errno
  wq_alloc_ok : Bool
deriving DecidableEq, Repr

/-- blk_validate_block_size (block core, not in the excerpt).  Modelled from
the spec: "Validates requested block size" — valid iff a power of two between
512 and the page size (4096). -/
def blk_validate_block_size (bsize : Nat) : Bool :=
  decide (bsize = 512 ∨ bsize = 1024 ∨ bsize = 2048 ∨ bsize = 4096)

/-- loop_config_discard of loop.c lines 962-1015: derive the discard limits
from the backing file and the device's encryption state, then set or clear
QUEUE_FLAG_DISCARD. -/
def loop_config_discard_params (lo : loop_device) (file : LoopFile) :
    Nat × Nat :=
  if file.is_blk ∧ lo.lo_encrypt_key_size = 0 then
    (file.backing_max_write_zeroes,
      if file.backing_discard_granularity ≠ 0 then
        file.backing_discard_granularity
      else file.backing_physical_block_size)
  else if ¬ file.has_fallocate ∨ lo.lo_encrypt_key_size ≠ 0 then (0, 0)
  else if file.statfs_ok then ((2 ^ 32 - 1) >>> 9, file.statfs_bsize)
  else (0, 0)

def loop_config_discard (lo : loop_device) (file : LoopFile) : loop_device :=
  let mds := (loop_config_discard_params lo file).1
  let granularity := (loop_config_discard_params lo file).2
  if mds ≠ 0 then
    { lo with
      queue_discard := true,
      discard_granularity := granularity,
      max_discard_sectors := mds }
  else
    { lo with
      queue_discard := false,
      discard_granularity := 0,
      max_discard_sectors := 0 }

/-- lo_fallocate of loop.c lines 461-486 (the discard / zero-range strategy):
EOPNOTSUPP when the queue has discard disabled; otherwise the backing
fallocate result, with errors other than EINVAL/EOPNOTSUPP mapped to EIO. -/
def lo_fallocate (lo : loop_device) (file : LoopFile) : Option Errno :=
  if ¬ lo.queue_discard then some Errno.EOPNOTSUPP
  else
    match file.fallocate_result with
    | none => none
    | some e =>
        if e = Errno.EINVAL ∨ e = Errno.EOPNOTSUPP then some e
        else some Errno.EIO

/-- get_loop_size of loop.c lines 210-213. -/
def get_loop_size (lo : loop_device) (file : LoopFile) : Int :=
  get_size lo.lo_offset lo.lo_sizelimit file.size

/-- loop_configure of loop.c lines 1237-1394.  Locking, claiming and uevents
are elided; the branch structure and mutation order follow the source: all
early failures (bad fd, busy state, validate failure, illegal flags, bad
block size, loop_set_status_from_info failure, workqueue allocation failure)
return before lo_backing_file is installed or lo_state changed, and the
read-only flag derivation happens between the status commit and the
workqueue allocation.  lo->workqueue is overwritten with the allocation
result before the NULL check (lines 1309-1316), so the ENOMEM path leaves
the workqueue field cleared, not unchanged. -/
def loop_configure (tbl : List (Option loop_func_table)) (lo : loop_device)
    (env : ConfigEnv) (config : loop_config) : Option Errno × loop_device :=
  match env.file with
  | none => (some Errno.EBADF, lo)
  | some file =>
      if lo.lo_state ≠ LoState.Lo_unbound then (some Errno.EBUSY, lo)
      else
        match env.validate_err with
        | some e => (some e, lo)
        | none =>
            if (config.info.lo_flags % 2 ^ 32) &&&
                ((2 ^ 32 - 1) ^^^ LOOP_CONFIGURE_SETTABLE_FLAGS) ≠ 0 then
              (some Errno.EINVAL, lo)
            else if config.block_size ≠ 0 ∧
                ¬ blk_validate_block_size config.block_size then
              (some Errno.EINVAL, lo)
            else
              match loop_set_status_from_info tbl lo config.info with
              | (some e, lo1) => (some e, lo1)
              | (none, lo1) =>
                  let lo2 :=
                    if ¬ file.mode_write ∨ ¬ env.mode_write ∨
                        ¬ file.has_write_iter then
                      { lo1 with lo_flags :=
                          lo1.lo_flags ||| LO_FLAGS_READ_ONLY }
                    else lo1
                  let lo2w := { lo2 with workqueue := env.wq_alloc_ok }
                  if ¬ env.wq_alloc_ok then (some Errno.ENOMEM, lo2w)
                  else
                    let lo3 := { lo2w with lo_backing_file := some file }
                    let lo4 := loop_config_discard lo3 file
                    let size := get_loop_size lo4 file
                    let lo5 := { lo4 with capacity := size }
                    (none, { lo5 with lo_state := LoState.Lo_bound })

/-- First teardown phase of __loop_clr_fd (loop.c lines 1419-1487, the first
lo_mutex region): requires Lo_rundown and a backing file; destroys the
worker pool, clears the backing-file pointer, releases the transform and
resets every configuration field except lo_flags; state stays Lo_rundown
when the mutex is dropped at the end of the phase. -/
def loop_clr_fd_phase1 (lo : loop_device) : Option Errno × loop_device :=
  if lo.lo_state ≠ LoState.Lo_rundown then (some Errno.ENXIO, lo)
  else
    match lo.lo_backing_file with
    | none => (some Errno.EINVAL, lo)
    | some _ =>
        (none, { lo with
          lo_backing_file := none,
          workqueue := false,
          lo_encryption := none,
          transfer := false,
          lo_offset := 0,
          lo_sizelimit := 0,
          lo_encrypt_key_size := 0,
          lo_encrypt_key := List.replicate LO_KEY_SIZE 0,
          lo_crypt_name := List.replicate LO_NAME_SIZE 0,
          lo_file_name := List.replicate LO_NAME_SIZE 0,
          capacity := 0 })

/-- Second teardown phase of __loop_clr_fd (loop.c lines 1518-1523, the
second lo_mutex region, after the partition rescan): clear lo_flags and
transition to Lo_unbound. -/
def loop_clr_fd_phase2 (lo : loop_device) : loop_device :=
  { lo with lo_flags := 0, lo_state := LoState.Lo_unbound }

/-- __loop_clr_fd of loop.c lines 1396-1535: phase 1 then phase 2.  Phase 2
runs unconditionally: the ENXIO and EINVAL exits of phase 1 are `goto
out_unlock`, which skips only the teardown body — execution then falls
through into the second mutex region (lines 1518-1523) that clears lo_flags
and sets Lo_unbound even on those error paths. -/
def loop_clr_fd_full (lo : loop_device) : Option Errno × loop_device :=
  match loop_clr_fd_phase1 lo with
  | (e, lo1) => (e, loop_clr_fd_phase2 lo1)

/-- loop_clr_fd of loop.c lines 1537-1567: reject unless Lo_bound; with an
elevated reference count only set LO_FLAGS_AUTOCLEAR and defer; otherwise
enter Lo_rundown and run the full teardown. -/
def loop_clr_fd (lo : loop_device) : Option Errno × loop_device :=
  if lo.lo_state ≠ LoState.Lo_bound then (some Errno.ENXIO, lo)
  else if lo.lo_refcnt > 1 then
    (none, { lo with lo_flags := lo.lo_flags ||| LO_FLAGS_AUTOCLEAR })
  else loop_clr_fd_full { lo with lo_state := LoState.Lo_rundown }

/-- Spec invariant P1: the backing-file handle is non-null iff the lifecycle
state is Bound or Rundown. -/
def P1 (lo : loop_device) : Prop :=
  lo.lo_backing_file.isSome ↔
    (lo.lo_state = LoState.Lo_bound ∨ lo.lo_state = LoState.Lo_rundown)

instance (lo : loop_device) : Decidable (P1 lo) := by
  unfold P1; infer_instance

/-- The weakening of P1 that also holds at the intermediate boundary inside
__loop_clr_fd: a non-null backing file implies state Bound or Rundown. -/
def P1w (lo : loop_device) : Prop :=
  lo.lo_backing_file.isSome →
    (lo.lo_state = LoState.Lo_bound ∨ lo.lo_state = LoState.Lo_rundown)

instance (lo : loop_device) : Decidable (P1w lo) := by
  unfold P1w; infer_instance

/-- A plain writable regular backing file of the given size. -/
def plainFile (fsize : Int) : LoopFile :=
  { size := fsize, mode_write := true, has_write_iter := true, is_blk := false,
    has_fallocate := false, backing_max_write_zeroes := 0,
    backing_discard_granularity := 0, backing_physical_block_size := 512,
    statfs_ok := true, statfs_bsize := 4096, fallocate_result := none,
    content := [] }

/-- A configure environment where every kernel service succeeds. -/
def plainEnv (fsize : Int) : ConfigEnv :=
  { file := some (plainFile fsize), mode_write := true, validate_err := none,
    wq_alloc_ok := true }

/-- An all-zero loop_info64. -/
def loop_info64_zero : loop_info64 :=
  { lo_device := 0, lo_inode := 0, lo_rdevice := 0, lo_offset := 0,
    lo_sizelimit := 0, lo_number := 0, lo_encrypt_type := 0,
    lo_encrypt_key_size := 0, lo_flags := 0,
    lo_file_name := List.replicate LO_NAME_SIZE 0,
    lo_crypt_name := List.replicate LO_NAME_SIZE 0,
    lo_encrypt_key := List.replicate LO_KEY_SIZE 0,
    lo_init0 := 0, lo_init1 := 0 }

/-- A LOOP_CONFIGURE argument requesting only a byte offset. -/
def offsetConfig (offN : Nat) : loop_config :=
  { info := { loop_info64_zero with lo_offset := offN }, block_size := 0 }

theorem get_size_of_short_file (offset sizelimit fileSize : Int)
    (hfs : 0 ≤ fileSize) (hshort : fileSize < offset) :
    get_size offset sizelimit fileSize = 0 := by
  simp only [get_size]
  split_ifs <;> first | rfl | (exfalso; omega)

/-- C5: capacity computation.  The computed capacity agrees with the spec's
formula (file size minus offset, clamped below by zero and above by a
positive sizelimit, in 512-byte sectors), and a configure over a backing
file shorter than the requested offset succeeds with capacity 0 rather than
failing. -/
theorem c5_capacity_computation :
    (∀ offset sizelimit fileSize : Int, 0 ≤ offset → 0 ≤ sizelimit →
      get_size offset sizelimit fileSize
        = spec_capacity offset sizelimit fileSize) ∧
    (∀ (fileSize : Int) (offN : Nat), 0 ≤ fileSize → fileSize < (offN : Int) →
      offN ≤ LLONG_MAX →
      (loop_configure xfer_funcs_init loop_device_default (plainEnv fileSize)
          (offsetConfig offN)).1 = none ∧
      (loop_configure xfer_funcs_init loop_device_default (plainEnv fileSize)
          (offsetConfig offN)).2.capacity = 0) := by
  constructor
  · intro offset sizelimit fileSize hoff hsl
    simp only [get_size, spec_capacity]
    have hsub : (if offset > 0 then fileSize - offset else fileSize)
        = fileSize - offset := by split_ifs <;> omega
    rw [hsub]
    split_ifs <;> (congr 1; omega)
  · intro fileSize offN hfs hshort hbound
    have hnlt : ¬ LLONG_MAX < offN := Nat.not_lt.mpr hbound
    constructor
    · simp only [loop_configure, plainEnv, offsetConfig, loop_device_default,
        loop_set_status_from_info, loop_release_xfer, loop_init_xfer, xfer_lookup,
        loop_info64_zero, loop_config_discard, plainFile]
      simp [hnlt, LO_KEY_SIZE, MAX_LO_CRYPT, LOOP_CONFIGURE_SETTABLE_FLAGS,
        LO_FLAGS_READ_ONLY, LO_FLAGS_AUTOCLEAR, LO_FLAGS_PARTSCAN,
        LO_FLAGS_DIRECT_IO]
    · simp only [loop_configure, plainEnv, offsetConfig, loop_device_default,
        loop_set_status_from_info, loop_release_xfer, loop_init_xfer, xfer_lookup,
        loop_info64_zero, loop_config_discard, plainFile]
      simp [hnlt, LO_KEY_SIZE, MAX_LO_CRYPT, LOOP_CONFIGURE_SETTABLE_FLAGS,
        LO_FLAGS_READ_ONLY, LO_FLAGS_AUTOCLEAR, LO_FLAGS_PARTSCAN,
        LO_FLAGS_DIRECT_IO, get_loop_size]
      exact get_size_of_short_file _ _ _ hfs (by exact_mod_cast hshort)

theorem c5_capacity_computation_witness :
    get_size 0 0 1024 = spec_capacity 0 0 1024 ∧
    (loop_configure xfer_funcs_init loop_device_default (plainEnv 100)
        (offsetConfig 200)).1 = none ∧
    (loop_configure xfer_funcs_init loop_device_default (plainEnv 100)
        (offsetConfig 200)).2.capacity = 0 :=
  ⟨c5_capacity_computation.1 0 0 1024 (by decide) (by decide),
   (c5_capacity_computation.2 100 200 (by decide) (by decide) (by decide)).1,
   (c5_capacity_computation.2 100 200 (by decide) (by decide) (by decide)).2⟩

/-- A bound device with a plain backing file, as left by a successful
configure (used as a concrete evaluation point). -/
def boundDeviceW : loop_device :=
  { loop_device_default with
    lo_state := LoState.Lo_bound,
    lo_backing_file := some (plainFile 1000),
    workqueue := true,
    capacity := 1 }

/-- C8: unbind precondition.  loop_clr_fd on a device whose state is not
Lo_bound returns ENXIO and performs no teardown (the device is returned
unchanged); and after a successful non-deferred unbind, a second unbind on
the same device is again rejected with ENXIO — it never silently succeeds
twice on one binding. -/
theorem c8_clr_fd_not_bound_enxio :
    (∀ lo : loop_device, lo.lo_state ≠ LoState.Lo_bound →
      loop_clr_fd lo = (some Errno.ENXIO, lo)) ∧
    (∀ lo : loop_device, lo.lo_state = LoState.Lo_bound → lo.lo_refcnt ≤ 1 →
      loop_clr_fd ((loop_clr_fd lo).2)
        = (some Errno.ENXIO, (loop_clr_fd lo).2)) := by
  constructor
  · intro lo h
    simp [loop_clr_fd, h]
  · intro lo hb hr
    have hnr : ¬ lo.lo_refcnt > 1 := by omega
    cases hfile : lo.lo_backing_file with
    | none =>
        simp [loop_clr_fd, hb, hnr, loop_clr_fd_full, loop_clr_fd_phase1,
          hfile, loop_clr_fd_phase2]
    | some f =>
        simp [loop_clr_fd, hb, hnr, loop_clr_fd_full, loop_clr_fd_phase1,
          hfile, loop_clr_fd_phase2]

theorem c8_clr_fd_not_bound_enxio_witness :
    loop_clr_fd loop_device_default
        = (some Errno.ENXIO, loop_device_default) ∧
    loop_clr_fd ((loop_clr_fd boundDeviceW).2)
        = (some Errno.ENXIO, (loop_clr_fd boundDeviceW).2) :=
  ⟨c8_clr_fd_not_bound_enxio.1 loop_device_default (by decide),
   c8_clr_fd_not_bound_enxio.2 boundDeviceW (by decide) (by decide)⟩

@[simp]
theorem loop_config_discard_state (lo : loop_device) (file : LoopFile) :
    (loop_config_discard lo file).lo_state = lo.lo_state := by
  simp only [loop_config_discard]
  split <;> rfl

@[simp]
theorem loop_config_discard_backing (lo : loop_device) (file : LoopFile) :
    (loop_config_discard lo file).lo_backing_file = lo.lo_backing_file := by
  simp only [loop_config_discard]
  split <;> rfl

theorem loop_release_xfer_core (lo : loop_device) :
    (loop_release_xfer lo).1 = none ∧
    (loop_release_xfer lo).2.lo_state = lo.lo_state ∧
    (loop_release_xfer lo).2.lo_backing_file = lo.lo_backing_file ∧
    (loop_release_xfer lo).2.workqueue = lo.workqueue := by
  unfold loop_release_xfer
  cases lo.lo_encryption <;> simp

theorem loop_init_xfer_core (lo : loop_device)
    (xfer : Option loop_func_table) (info : loop_info64) :
    (loop_init_xfer lo xfer info).2.lo_state = lo.lo_state ∧
    (loop_init_xfer lo xfer info).2.lo_backing_file = lo.lo_backing_file ∧
    (loop_init_xfer lo xfer info).2.workqueue = lo.workqueue := by
  unfold loop_init_xfer
  cases xfer with
  | none => simp
  | some x =>
      dsimp only
      split <;> simp

theorem loop_set_status_from_info_core_fields
    (tbl : List (Option loop_func_table)) (lo : loop_device)
    (info : loop_info64) :
    (loop_set_status_from_info tbl lo info).2.lo_state = lo.lo_state ∧
    (loop_set_status_from_info tbl lo info).2.lo_backing_file
      = lo.lo_backing_file ∧
    (loop_set_status_from_info tbl lo info).2.workqueue = lo.workqueue := by
  obtain ⟨hr0, hr1, hr2, hr3⟩ := loop_release_xfer_core lo
  unfold loop_set_status_from_info
  split
  · simp
  · rcases hrel : loop_release_xfer lo with ⟨e1, lo1⟩
    rw [hrel] at hr0 hr1 hr2 hr3
    simp only at hr0 hr1 hr2 hr3
    subst hr0
    rcases hlk : xfer_lookup tbl info.lo_encrypt_type with e | xfer
    · simp [hlk, hr1, hr2, hr3]
    · have hic := loop_init_xfer_core lo1 xfer info
      rcases hini : loop_init_xfer lo1 xfer info with ⟨e2, lo2⟩
      rw [hini] at hic
      simp only at hic
      obtain ⟨hia, hib, hic2⟩ := hic
      cases e2 with
      | some e =>
          simp [hlk, hini, hia, hib, hic2, hr1, hr2, hr3]
      | none =>
          by_cases hov : info.lo_offset > LLONG_MAX ∨
              info.lo_sizelimit > LLONG_MAX
          · simp [hlk, hini, hov, hia, hib, hic2, hr1, hr2, hr3]
          · simp [hlk, hini, hov, hia, hib, hic2, hr1, hr2, hr3]

/-- C2 counterexample: a configure call that fails at the workqueue
allocation (after loop_set_status_from_info has committed the info) returns
ENOMEM with the device still Unbound but with lo_offset already changed from
0 to 42 — so a configuration field HAS been mutated on an error return,
contradicting the claim. -/
theorem c2_failed_configure_mutates_fields :
    (loop_configure xfer_funcs_init loop_device_default
        { file := some (plainFile 1000), mode_write := true,
          validate_err := none, wq_alloc_ok := false }
        (offsetConfig 42)).1 = some Errno.ENOMEM ∧
    (loop_configure xfer_funcs_init loop_device_default
        { file := some (plainFile 1000), mode_write := true,
          validate_err := none, wq_alloc_ok := false }
        (offsetConfig 42)).2.lo_offset = 42 ∧
    loop_device_default.lo_offset = 0 := by decide

/-- C2 amended: every configure call on a device without a workqueue (as
every Unbound device is) that returns an error leaves the device's
lifecycle state unchanged (in particular Unbound), with no backing-file
handle installed and no workqueue kept (the ENOMEM path overwrites
lo->workqueue with the NULL allocation result); configuration fields
written by loop_set_status_from_info (offset, sizelimit, flags, names, key,
transform selection) may however retain partially applied values when the
failure occurs after that commit step (offset/sizelimit overflow detected
after a successful transform init, or a failed workqueue allocation). -/
theorem c2_configure_error_state_unchanged
    (tbl : List (Option loop_func_table)) (lo : loop_device)
    (env : ConfigEnv) (config : loop_config) (e : Errno)
    (hwq : lo.workqueue = false) :
    (loop_configure tbl lo env config).1 = some e →
    (loop_configure tbl lo env config).2.lo_state = lo.lo_state ∧
    (loop_configure tbl lo env config).2.lo_backing_file
      = lo.lo_backing_file ∧
    (loop_configure tbl lo env config).2.workqueue = false := by
  have hcore := loop_set_status_from_info_core_fields tbl lo config.info
  unfold loop_configure
  repeat' split
  all_goals intro h
  all_goals simp_all

theorem c2_configure_error_state_unchanged_witness :
    (loop_configure xfer_funcs_init loop_device_default
        { file := some (plainFile 1000), mode_write := true,
          validate_err := none, wq_alloc_ok := false }
        (offsetConfig 7)).1 = some Errno.ENOMEM ∧
    (loop_configure xfer_funcs_init loop_device_default
        { file := some (plainFile 1000), mode_write := true,
          validate_err := none, wq_alloc_ok := false }
        (offsetConfig 7)).2.lo_state = loop_device_default.lo_state ∧
    (loop_configure xfer_funcs_init loop_device_default
        { file := some (plainFile 1000), mode_write := true,
          validate_err := none, wq_alloc_ok := false }
        (offsetConfig 7)).2.workqueue = false :=
  ⟨by decide,
   (c2_configure_error_state_unchanged xfer_funcs_init loop_device_default
      { file := some (plainFile 1000), mode_write := true,
        validate_err := none, wq_alloc_ok := false }
      (offsetConfig 7) Errno.ENOMEM (by decide) (by decide)).1,
   (c2_configure_error_state_unchanged xfer_funcs_init loop_device_default
      { file := some (plainFile 1000), mode_write := true,
        validate_err := none, wq_alloc_ok := false }
      (offsetConfig 7) Errno.ENOMEM (by decide) (by decide)).2.2⟩

/-- C1 counterexample: the invariant (backing non-null iff state Bound or
Rundown) does NOT hold at every observable boundary of the teardown phases
of __loop_clr_fd.  From a bound device satisfying the invariant, unbind
first sets Lo_rundown (invariant still holds), but the first teardown phase
then clears lo_backing_file under the mutex and drops the mutex with the
state still Lo_rundown (loop.c lines 1449-1452 and 1487, before the second
region sets Lo_unbound at line 1522): at that observable boundary the state
is Rundown with a null backing file, so the iff fails. -/
theorem c1_rundown_phase_breaks_invariant :
    P1 boundDeviceW ∧
    P1 { boundDeviceW with lo_state := LoState.Lo_rundown } ∧
    (loop_clr_fd_phase1
        { boundDeviceW with lo_state := LoState.Lo_rundown }).1 = none ∧
    ¬ P1 ((loop_clr_fd_phase1
        { boundDeviceW with lo_state := LoState.Lo_rundown }).2) := by
  decide

/-- C1 amended: the invariant P1 (backing-file non-null iff state Bound or
Rundown) is preserved by configure and loop_clr_fd from every
invariant-satisfying state, and by the full __loop_clr_fd teardown when
entered in the Lo_rundown state — the only state from which the source
invokes it (both callers set Lo_rundown under lo_mutex immediately before
the call); at the intermediate observable boundary between the two teardown
phases only the weaker direction P1w (backing non-null implies Bound or
Rundown) holds, because the backing file is cleared while the state is
still Rundown.  (The Rundown entry precondition is needed because the
defensive ENXIO/EINVAL exits of __loop_clr_fd still fall through to the
final region that sets Lo_unbound, which from a hypothetical Bound entry
would leave Lo_unbound with the backing file installed.) -/
theorem c1_ops_preserve_invariant_amended
    (tbl : List (Option loop_func_table)) (env : ConfigEnv)
    (config : loop_config) (lo1 lo2 lo3 lo4 : loop_device)
    (h1 : P1 lo1) (h2 : P1 lo2) (h3 : P1 lo3)
    (h3r : lo3.lo_state = LoState.Lo_rundown) (h4 : P1w lo4) :
    P1 ((loop_configure tbl lo1 env config).2) ∧
    P1 ((loop_clr_fd lo2).2) ∧
    P1 ((loop_clr_fd_full lo3).2) ∧
    P1w ((loop_clr_fd_phase1 lo4).2) := by
  refine ⟨?_, ?_, ?_, ?_⟩
  · have hcore := loop_set_status_from_info_core_fields tbl lo1 config.info
    unfold loop_configure
    repeat' split
    all_goals simp_all [P1]
  · by_cases hb : lo2.lo_state = LoState.Lo_bound
    · have hsome : lo2.lo_backing_file.isSome := h2.mpr (Or.inl hb)
      rcases hfile : lo2.lo_backing_file with _ | f
      · rw [hfile] at hsome; simp at hsome
      · by_cases hr : lo2.lo_refcnt > 1
        · simp [loop_clr_fd, hb, hr, P1, hfile]
        · simp [loop_clr_fd, hb, hr, loop_clr_fd_full, loop_clr_fd_phase1,
            hfile, loop_clr_fd_phase2, P1]
    · simp only [loop_clr_fd, if_pos hb]
      simpa [hb] using h2
  · have hsome : lo3.lo_backing_file.isSome := h3.mpr (Or.inr h3r)
    rcases hfile : lo3.lo_backing_file with _ | f
    · rw [hfile] at hsome; simp at hsome
    · simp [loop_clr_fd_full, loop_clr_fd_phase1, h3r, hfile,
        loop_clr_fd_phase2, P1]
  · by_cases hrd : lo4.lo_state = LoState.Lo_rundown
    · rcases hfile : lo4.lo_backing_file with _ | f
      · simpa [loop_clr_fd_phase1, hrd, hfile] using h4
      · simp [loop_clr_fd_phase1, hrd, hfile, P1w]
    · simp only [loop_clr_fd_phase1, if_pos hrd]
      simpa [hrd] using h4

/-- A device mid-unbind: Lo_rundown with the backing file still attached,
as __loop_clr_fd finds it on entry. -/
def rundownDeviceW : loop_device :=
  { boundDeviceW with lo_state := LoState.Lo_rundown }

theorem c1_ops_preserve_invariant_amended_witness :
    P1 ((loop_configure xfer_funcs_init loop_device_default (plainEnv 1000)
        (offsetConfig 0)).2) ∧
    P1 ((loop_clr_fd boundDeviceW).2) ∧
    P1 ((loop_clr_fd_full rundownDeviceW).2) ∧
    P1w ((loop_clr_fd_phase1 rundownDeviceW).2) :=
  c1_ops_preserve_invariant_amended xfer_funcs_init (plainEnv 1000)
    (offsetConfig 0) loop_device_default boundDeviceW rundownDeviceW
    rundownDeviceW (by decide) (by decide) (by decide) (by decide)
    (by decide)

/-- vfs_iter_read into a single bio_vec: returns the bytes obtained reading
`len` bytes at byte position `pos` of the backing file (fewer than `len`
past end of file, never an error in this model). -/
def vfs_read_bytes (content : List Nat) (pos len : Nat) : List Nat :=
  (content.drop pos).take len

/-- zero_fill_bio (block core): zeroes every byte of every segment of the
bio, starting from the bio's current iterator — which in the loop read paths
is the whole buffer of the bio. -/
def zero_fill_bio (bio : List (List Nat)) : List (List Nat) :=
  bio.map (fun seg => List.replicate seg.length 0)

/-- The rq_for_each_segment walk of lo_read_simple within one bio: each
segment receives the bytes read at the running file position; a short read
(len != bvec.bv_len) stops the walk.  Returns the updated segments, the
final position and the short-read flag.  Bytes of a segment beyond a short
read keep their previous (uninitialized) content at this stage. -/
def lo_read_segs (content : List Nat) (pos : Nat) :
    List (List Nat) → List (List Nat) × Nat × Bool
  | [] => ([], pos, false)
  | seg :: rest =>
      let data := vfs_read_bytes content pos seg.length
      let newSeg := data ++ seg.drop data.length
      if data.length ≠ seg.length then (newSeg :: rest, pos + data.length, true)
      else
        let r := lo_read_segs content (pos + seg.length) rest
        (newSeg :: r.1, r.2.1, r.2.2)

/-- The walk of lo_read_simple across the bios of the request. -/
def lo_read_bios (content : List Nat) (pos : Nat) :
    List (List (List Nat)) → List (List (List Nat)) × Nat × Bool
  | [] => ([], pos, false)
  | bio :: rest =>
      let r := lo_read_segs content pos bio
      if r.2.2 then (r.1 :: rest, r.2.1, true)
      else
        let r2 := lo_read_bios content r.2.1 rest
        (r.1 :: r2.1, r2.2.1, r2.2.2)

/-- lo_read_simple of loop.c lines 382-409: read each segment in submission
order; when a read returns fewer bytes than the segment length, the code
zero-fills EVERY bio of the request (loop.c lines 398-403) and stops. -/
def lo_read_simple (content : List Nat) (pos : Nat)
    (rq : List (List (List Nat))) : List (List (List Nat)) :=
  let r := lo_read_bios content pos rq
  if r.2.2 then r.1.map zero_fill_bio else r.1

/-- The segment walk of lo_read_transfer within one bio: each segment's data
is read into a scratch page and the transform applied for the bytes actually
read (`len`), with the block argument `offset >> 9`; a short read stops the
walk.  The device transform is the XOR plugin with key `key`. -/
def lo_read_transfer_segs (key : List Nat) (content : List Nat) (pos : Nat) :
    List (List Nat) → List (List Nat) × Nat × Bool
  | [] => ([], pos, false)
  | seg :: rest =>
      let data := vfs_read_bytes content pos seg.length
      let tData := transfer_xor key IOCmd.read (pos >>> 9) data
      let newSeg := tData ++ seg.drop data.length
      if data.length ≠ seg.length then (newSeg :: rest, pos + data.length, true)
      else
        let r := lo_read_transfer_segs key content (pos + seg.length) rest
        (newSeg :: r.1, r.2.1, r.2.2)

/-- The walk of lo_read_transfer across the bios of the request. -/
def lo_read_transfer_bios (key : List Nat) (content : List Nat) (pos : Nat) :
    List (List (List Nat)) → List (List (List Nat)) × Nat × Bool
  | [] => ([], pos, false)
  | bio :: rest =>
      let r := lo_read_transfer_segs key content pos bio
      if r.2.2 then (r.1 :: rest, r.2.1, true)
      else
        let r2 := lo_read_transfer_bios key content r.2.1 rest
        (r.1 :: r2.1, r2.2.1, r2.2.2)

/-- lo_read_transfer of loop.c lines 411-459: like lo_read_simple but each
segment goes through the transform; the same zero-fill of every bio happens
on a short read (loop.c lines 446-451). -/
def lo_read_transfer (key : List Nat) (content : List Nat) (pos : Nat)
    (rq : List (List (List Nat))) : List (List (List Nat)) :=
  let r := lo_read_transfer_bios key content pos rq
  if r.2.2 then r.1.map zero_fill_bio else r.1

theorem lo_read_segs_zero_fill (content : List Nat) (pos : Nat)
    (segs : List (List Nat)) :
    zero_fill_bio (lo_read_segs content pos segs).1 = zero_fill_bio segs := by
  induction segs generalizing pos with
  | nil => rfl
  | cons seg rest ih =>
      have hlen : (vfs_read_bytes content pos seg.length).length
          ≤ seg.length := by
        simp [vfs_read_bytes]
      simp only [lo_read_segs]
      split
      · simp [zero_fill_bio]
        omega
      · have htail := ih (pos + seg.length)
        simp only [zero_fill_bio, List.map_cons] at htail ⊢
        rw [htail]
        congr 2
        rw [List.length_append, List.length_drop]
        omega

theorem lo_read_bios_zero_fill (content : List Nat) (pos : Nat)
    (rq : List (List (List Nat))) :
    (lo_read_bios content pos rq).1.map zero_fill_bio
      = rq.map zero_fill_bio := by
  induction rq generalizing pos with
  | nil => rfl
  | cons bio rest ih =>
      simp only [lo_read_bios]
      split
      · simp [lo_read_segs_zero_fill]
      · simp [lo_read_segs_zero_fill, ih]

theorem lo_read_transfer_segs_zero_fill (key content : List Nat) (pos : Nat)
    (segs : List (List Nat)) :
    zero_fill_bio (lo_read_transfer_segs key content pos segs).1
      = zero_fill_bio segs := by
  induction segs generalizing pos with
  | nil => rfl
  | cons seg rest ih =>
      have hlen : (vfs_read_bytes content pos seg.length).length
          ≤ seg.length := by
        simp [vfs_read_bytes]
      have hxlen : (transfer_xor key IOCmd.read (pos >>> 9)
          (vfs_read_bytes content pos seg.length)).length
          = (vfs_read_bytes content pos seg.length).length := by
        unfold transfer_xor
        exact xorBytes_length key 0 _
      simp only [lo_read_transfer_segs]
      split
      · simp [zero_fill_bio, hxlen]
        omega
      · have htail := ih (pos + seg.length)
        simp only [zero_fill_bio, List.map_cons] at htail ⊢
        rw [htail]
        congr 2
        rw [List.length_append, hxlen, List.length_drop]
        omega

theorem lo_read_transfer_bios_zero_fill (key content : List Nat) (pos : Nat)
    (rq : List (List (List Nat))) :
    (lo_read_transfer_bios key content pos rq).1.map zero_fill_bio
      = rq.map zero_fill_bio := by
  induction rq generalizing pos with
  | nil => rfl
  | cons bio rest ih =>
      simp only [lo_read_transfer_bios]
      split
      · simp [lo_read_transfer_segs_zero_fill]
      · simp [lo_read_transfer_segs_zero_fill, ih]

set_option maxRecDepth 10000 in
/-- C3 counterexample: the spec's own scenario (100-byte file, one 512-byte
read at position 0) refutes the claim.  The short read triggers
zero_fill_bio over the whole bio, which overwrites the 100 bytes already
read: the result is 512 zero bytes, not the 100 file bytes (0xAA = 170)
followed by 412 zeros. -/
theorem c3_short_read_clobbers_prefix :
    lo_read_simple (List.replicate 100 170) 0 [[List.replicate 512 187]]
      = [[List.replicate 512 0]] ∧
    ([[List.replicate 512 0]] : List (List (List Nat)))
      ≠ [[List.replicate 100 170 ++ List.replicate 412 0]] := by
  constructor
  · decide
  · decide

/-- C3 amended: on a buffered or transform read whose underlying read
returns fewer bytes than requested, the driver zero-fills the ENTIRE buffer
of every bio of the command — including the bytes already read, which are
overwritten — so no byte is left uninitialized, but the prefix does NOT
retain the backing-file content. -/
theorem c3_short_read_zero_fill_amended (key content : List Nat) (pos : Nat)
    (rq : List (List (List Nat)))
    (h1 : (lo_read_bios content pos rq).2.2 = true)
    (h2 : (lo_read_transfer_bios key content pos rq).2.2 = true) :
    lo_read_simple content pos rq = rq.map zero_fill_bio ∧
    lo_read_transfer key content pos rq = rq.map zero_fill_bio := by
  constructor
  · unfold lo_read_simple
    rw [if_pos h1]
    exact lo_read_bios_zero_fill content pos rq
  · unfold lo_read_transfer
    rw [if_pos h2]
    exact lo_read_transfer_bios_zero_fill key content pos rq

theorem c3_short_read_zero_fill_amended_witness :
    (lo_read_bios [1, 2] 0 [[[5, 5, 5, 5]]]).2.2 = true ∧
    (lo_read_transfer_bios [9] [1, 2] 0 [[[5, 5, 5, 5]]]).2.2 = true ∧
    lo_read_simple [1, 2] 0 [[[5, 5, 5, 5]]]
      = [[[5, 5, 5, 5]]].map zero_fill_bio ∧
    lo_read_transfer [9] [1, 2] 0 [[[5, 5, 5, 5]]]
      = [[[5, 5, 5, 5]]].map zero_fill_bio :=
  ⟨by decide, by decide,
   (c3_short_read_zero_fill_amended [9] [1, 2] 0 [[[5, 5, 5, 5]]]
      (by decide) (by decide)).1,
   (c3_short_read_zero_fill_amended [9] [1, 2] 0 [[[5, 5, 5, 5]]]
      (by decide) (by decide)).2⟩

theorem replicate_none_getD (m n : Nat) :
    (List.replicate m (none : Option loop_func_table)).getD n none = none := by
  induction m generalizing n with
  | zero => cases n <;> rfl
  | succ m ih =>
      cases n with
      | zero => rfl
      | succ k =>
          simp only [List.replicate_succ, List.getD_cons_succ]
          exact ih k

theorem xfer_funcs_init_slot (t : Nat) (y : loop_func_table)
    (ht : t ≠ 0) (h : xfer_funcs_init.getD t none = some y) :
    y = xor_funcs := by
  match t with
  | 0 => exact absurd rfl ht
  | 1 =>
      simp [xfer_funcs_init] at h
      exact h.symm
  | n + 2 =>
      rw [show xfer_funcs_init.getD (n + 2) none
          = (List.replicate (MAX_LO_CRYPT - 2)
              (none : Option loop_func_table)).getD n none from rfl,
        replicate_none_getD] at h
      exact absurd h (by simp)

theorem xfer_lookup_init_xor (t : Nat) (x : loop_func_table)
    (h : xfer_lookup xfer_funcs_init t = Except.ok (some x)) :
    x = xor_funcs := by
  unfold xfer_lookup at h
  split at h
  · split at h
    · exact absurd h (by simp)
    · rename_i ht _
      split at h
      · exact absurd h (by simp)
      · rename_i y hy
        have hx : y = x := by
          simpa using h
        exact hx ▸ xfer_funcs_init_slot t y ht hy
  · exact absurd h (by simp)

/-- On success, loop_set_status_from_info commits the looked-up transform:
the resulting lo.transfer flag is the chosen table entry's transfer hook
presence, lo_encrypt_key_size is the one from the info, and the transform
init hook accepted the info. -/
theorem loop_set_status_from_info_ok_shape
    (tbl : List (Option loop_func_table)) (lo : loop_device)
    (info : loop_info64) (lo' : loop_device)
    (h : loop_set_status_from_info tbl lo info = (none, lo')) :
    ∃ xfer, xfer_lookup tbl info.lo_encrypt_type = Except.ok xfer ∧
      (loop_init_xfer (loop_release_xfer lo).2 xfer info).1 = none ∧
      lo'.transfer = (xfer.getD none_funcs).has_transfer ∧
      lo'.lo_encrypt_key_size = info.lo_encrypt_key_size := by
  unfold loop_set_status_from_info at h
  split at h
  · exact absurd h (by simp)
  · rcases hrel : loop_release_xfer lo with ⟨e1, lo1⟩
    have hr0 : e1 = none := by
      have := (loop_release_xfer_core lo).1
      rw [hrel] at this
      exact this
    subst hr0
    rw [hrel] at h
    simp only at h
    rcases hlk : xfer_lookup tbl info.lo_encrypt_type with e | xfer
    · rw [hlk] at h
      exact absurd h (by simp)
    · rw [hlk] at h
      simp only at h
      rcases hini : loop_init_xfer lo1 xfer info with ⟨e2, lo2⟩
      rw [hini] at h
      cases e2 with
      | some e => exact absurd h (by simp)
      | none =>
          simp only at h
          refine ⟨xfer, rfl, ?_, ?_, ?_⟩
          · rw [hini]
          · by_cases hov : info.lo_offset > LLONG_MAX ∨
                info.lo_sizelimit > LLONG_MAX
            · rw [if_pos hov] at h
              injection h with h1 h2
              simp at h1
            · rw [if_neg hov] at h
              injection h with h1 h2
              rw [← h2]
          · by_cases hov : info.lo_offset > LLONG_MAX ∨
                info.lo_sizelimit > LLONG_MAX
            · rw [if_pos hov] at h
              injection h with h1 h2
              simp at h1
            · rw [if_neg hov] at h
              injection h with h1 h2
              rw [← h2]

/-- With the in-tree transfer table, a successful loop_set_status_from_info
that leaves an active transform implies a non-zero encryption key size:
the only table entry with a transfer hook is the XOR plugin, whose xor_init
rejects a zero key size. -/
theorem set_status_active_xfer_key_nonzero (lo : loop_device)
    (info : loop_info64) (lo' : loop_device)
    (hset : loop_set_status_from_info xfer_funcs_init lo info = (none, lo'))
    (hactive : lo'.transfer = true) :
    lo'.lo_encrypt_key_size ≠ 0 := by
  obtain ⟨xfer, hlk, hini, htr, hks⟩ :=
    loop_set_status_from_info_ok_shape xfer_funcs_init lo info lo' hset
  cases xfer with
  | none =>
      rw [htr] at hactive
      exact absurd hactive (by simp [none_funcs])
  | some x =>
      have hx : x = xor_funcs := xfer_lookup_init_xor _ x hlk
      subst hx
      unfold loop_init_xfer at hini
      simp only [xor_funcs, LO_CRYPT_XOR, xor_init] at hini
      rw [hks]
      intro h0
      rw [h0] at hini
      simp at hini

/-- C4: discard disabled under encryption.  For every device configured
through loop_set_status_from_info (with the in-tree transfer table) so that
a transform plugin is active, loop_config_discard disables the discard queue
flag — regardless of the backing file's own discard/fallocate capabilities —
and a subsequent discard or zero-range request through lo_fallocate returns
EOPNOTSUPP. -/
theorem c4_discard_encrypted_eopnotsupp (lo lo' : loop_device)
    (info : loop_info64) (file : LoopFile)
    (hset : loop_set_status_from_info xfer_funcs_init lo info = (none, lo'))
    (hactive : lo'.transfer = true) :
    (loop_config_discard lo' file).queue_discard = false ∧
    lo_fallocate (loop_config_discard lo' file) file
      = some Errno.EOPNOTSUPP := by
  have hks := set_status_active_xfer_key_nonzero lo info lo' hset hactive
  have hq : (loop_config_discard lo' file).queue_discard = false := by
    unfold loop_config_discard loop_config_discard_params
    simp [hks]
  refine ⟨hq, ?_⟩
  unfold lo_fallocate
  rw [hq]
  simp

/-- An info selecting the XOR transform with a 4-byte key. -/
def xorInfo : loop_info64 :=
  { loop_info64_zero with
    lo_encrypt_type := LO_CRYPT_XOR,
    lo_encrypt_key_size := 4,
    lo_encrypt_key := List.replicate LO_KEY_SIZE 7 }

/-- A backing file that itself fully supports discard / fallocate. -/
def blkDiscardFile : LoopFile :=
  { plainFile 4096 with
    has_fallocate := true,
    backing_max_write_zeroes := 128,
    backing_discard_granularity := 512 }

theorem c4_discard_encrypted_eopnotsupp_witness :
    (loop_config_discard
        ((loop_set_status_from_info xfer_funcs_init loop_device_default
            xorInfo).2) blkDiscardFile).queue_discard = false ∧
    lo_fallocate
        (loop_config_discard
          ((loop_set_status_from_info xfer_funcs_init loop_device_default
              xorInfo).2) blkDiscardFile) blkDiscardFile
      = some Errno.EOPNOTSUPP :=
  c4_discard_encrypted_eopnotsupp loop_device_default
    ((loop_set_status_from_info xfer_funcs_init loop_device_default
        xorInfo).2) xorInfo blkDiscardFile (by decide) (by decide)

/-- loop_register_transfer of loop.c lines 2208-2216: reject when the slot
number is out of range OR the slot is already occupied (both -EINVAL);
otherwise store the entry. -/
def loop_register_transfer (tbl : List (Option loop_func_table))
    (funcs : loop_func_table) : Except Errno (List (Option loop_func_table)) :=
  if funcs.number ≥ MAX_LO_CRYPT ∨ (tbl.getD funcs.number none).isSome then
    Except.error Errno.EINVAL
  else Except.ok (tbl.set funcs.number (some funcs))

/-- loop_unregister_transfer of loop.c lines 2218-2240: the int argument is
cast to unsigned int; reject slot 0, out-of-range slots and empty slots
(all -EINVAL); otherwise clear the slot. -/
def loop_unregister_transfer (tbl : List (Option loop_func_table))
    (number : Int) : Except Errno (List (Option loop_func_table)) :=
  if (number % 2 ^ 32).toNat = 0 ∨ (number % 2 ^ 32).toNat ≥ MAX_LO_CRYPT ∨
      tbl.getD (number % 2 ^ 32).toNat none = none then
    Except.error Errno.EINVAL
  else Except.ok (tbl.set (number % 2 ^ 32).toNat none)

/-- C7 counterexample: registering a plugin whose slot (1) is already
occupied (by the XOR entry of the initial table) returns EINVAL, not an
AlreadyExists/EEXIST error as the claim states; the occupied-slot and
out-of-range failures are not distinguished by the code. -/
theorem c7_register_occupied_einval_not_eexist :
    (xfer_funcs_init.getD 1 none).isSome = true ∧
    loop_register_transfer xfer_funcs_init
        { number := 1, has_transfer := true, has_init := false,
          has_release := false }
      = Except.error Errno.EINVAL ∧
    Errno.EINVAL ≠ Errno.EEXIST :=
  ⟨by decide, rfl, by decide⟩

/-- C7 amended: register fails with InvalidArgument (EINVAL, the same code
for both conditions, not AlreadyExists) exactly when the slot number is out
of range or the slot is occupied, and on success stores the plugin in its
slot; unregister fails with EINVAL exactly when the (unsigned-cast) id is
the reserved identity slot 0, out of range, or the slot is empty, and on
success clears the slot. -/
theorem c7_transfer_table_errors_amended
    (tbl : List (Option loop_func_table)) (funcs : loop_func_table)
    (number : Int) :
    (loop_register_transfer tbl funcs = Except.error Errno.EINVAL ↔
      funcs.number ≥ MAX_LO_CRYPT ∨ (tbl.getD funcs.number none).isSome) ∧
    (¬ (funcs.number ≥ MAX_LO_CRYPT ∨ (tbl.getD funcs.number none).isSome) →
      loop_register_transfer tbl funcs
        = Except.ok (tbl.set funcs.number (some funcs))) ∧
    (loop_unregister_transfer tbl number = Except.error Errno.EINVAL ↔
      ((number % 2 ^ 32).toNat = 0 ∨ (number % 2 ^ 32).toNat ≥ MAX_LO_CRYPT ∨
        tbl.getD (number % 2 ^ 32).toNat none = none)) ∧
    (¬ ((number % 2 ^ 32).toNat = 0 ∨ (number % 2 ^ 32).toNat ≥ MAX_LO_CRYPT ∨
        tbl.getD (number % 2 ^ 32).toNat none = none) →
      loop_unregister_transfer tbl number
        = Except.ok (tbl.set (number % 2 ^ 32).toNat none)) := by
  refine ⟨?_, ?_, ?_, ?_⟩
  · unfold loop_register_transfer
    split <;> simp_all
  · intro hn
    unfold loop_register_transfer
    split <;> simp_all
    omega
  · unfold loop_unregister_transfer
    split <;> simp_all
  · intro hn
    unfold loop_unregister_transfer
    split <;> simp_all
    omega

theorem c7_transfer_table_errors_amended_witness :
    ¬ ((3 : Nat) ≥ MAX_LO_CRYPT ∨ (xfer_funcs_init.getD 3 none).isSome) ∧
    loop_register_transfer xfer_funcs_init
        { number := 3, has_transfer := true, has_init := false,
          has_release := false }
      = Except.ok (xfer_funcs_init.set 3
          (some { number := 3, has_transfer := true, has_init := false,
                  has_release := false })) ∧
    (loop_unregister_transfer xfer_funcs_init 1
      = Except.ok (xfer_funcs_init.set 1 none)) :=
  ⟨by decide,
   (c7_transfer_table_errors_amended xfer_funcs_init
      { number := 3, has_transfer := true, has_init := false,
        has_release := false } 1).2.1 (by decide),
   (c7_transfer_table_errors_amended xfer_funcs_init
      { number := 3, has_transfer := true, has_init := false,
        has_release := false } 1).2.2.2 (by decide)⟩

/-- The root blkcg css pointer, a fixed non-null handle. -/
def blkcg_root_css : Nat := 1

/-- queue_on_root_worker of loop.c lines 1031-1041 (CONFIG_BLK_CGROUP
variant): a null css or the root css routes to the dedicated root queue. -/
def queue_on_root_worker (css : Option Nat) : Bool :=
  decide (css = none ∨ css = some blkcg_root_css)

/-- struct loop_cmd: the routing-relevant fields (command identity and the
captured cgroup handles; a handle is an Option, none = NULL). -/
structure loop_cmd where
  id : Nat
  blkcg_css : Option Nat
  memcg_css : Option Nat
deriving DecidableEq, Repr

/-- struct loop_worker: the group handle it is affinitized to, its pending
command queue (FIFO), and whether it currently sits on the idle list. -/
structure loop_worker where
  blkcg_css : Nat
  cmd_list : List Nat
  on_idle_list : Bool
deriving DecidableEq, Repr

/-- The per-device routing state: the worker tree (modelled as the list of
its workers, looked up by css identity) and the root queue. -/
structure WorkerState where
  workers : List loop_worker
  rootcg_cmd_list : List Nat
deriving DecidableEq, Repr

/-- The rb-tree search plus enqueue of loop_queue_work lines 1057-1070 and
1093-1108: find the worker whose css matches, remove it from the idle list
and append the command to its queue; none when the lookup misses. -/
def enqueue_worker (css cid : Nat) :
    List loop_worker → Option (List loop_worker)
  | [] => none
  | w :: ws =>
      if w.blkcg_css = css then
        some ({ w with
                on_idle_list := false,
                cmd_list := w.cmd_list ++ [cid] } :: ws)
      else
        match enqueue_worker css cid ws with
        | some ws2 => some (w :: ws2)
        | none => none

/-- loop_queue_work of loop.c lines 1043-1111.  Root-bound commands go to
the root queue; otherwise the worker tree is searched; on a miss a worker is
allocated (success modelled by the allocOk oracle) and inserted; if the
allocation fails the command's cgroup handles are cleared and it is queued
on the root queue.  Returns the new state and the (possibly modified)
command. -/
def loop_queue_work (st : WorkerState) (cmd : loop_cmd) (allocOk : Bool) :
    WorkerState × loop_cmd :=
  if queue_on_root_worker cmd.blkcg_css then
    ({ st with rootcg_cmd_list := st.rootcg_cmd_list ++ [cmd.id] }, cmd)
  else
    let css := cmd.blkcg_css.getD 0
    match enqueue_worker css cmd.id st.workers with
    | some ws2 => ({ st with workers := ws2 }, cmd)
    | none =>
        if allocOk then
          ({ st with workers := st.workers ++
              [{ blkcg_css := css, cmd_list := [cmd.id],
                 on_idle_list := false }] }, cmd)
        else
          ({ st with rootcg_cmd_list := st.rootcg_cmd_list ++ [cmd.id] },
            { cmd with blkcg_css := none, memcg_css := none })

/-- Total number of commands queued anywhere on a device. -/
def totalCmds (st : WorkerState) : Nat :=
  st.rootcg_cmd_list.length + (st.workers.map (fun w => w.cmd_list.length)).sum

theorem enqueue_worker_sum (css cid : Nat) (ws ws2 : List loop_worker)
    (h : enqueue_worker css cid ws = some ws2) :
    (ws2.map (fun w => w.cmd_list.length)).sum
      = (ws.map (fun w => w.cmd_list.length)).sum + 1 := by
  induction ws generalizing ws2 with
  | nil => exact absurd h (by simp [enqueue_worker])
  | cons w rest ih =>
      simp only [enqueue_worker] at h
      split at h
      · injection h with h2
        subst h2
        simp
        omega
      · rcases hrec : enqueue_worker css cid rest with _ | ws3
        · rw [hrec] at h
          exact absurd h (by simp)
        · rw [hrec] at h
          injection h with h2
          subst h2
          simp [ih ws3 hrec]
          omega

/-- C9: router graceful degradation.  Every routing operation appends the
command to exactly one queue (the device-wide command count grows by exactly
one — no command is ever dropped); and when a non-root command misses in the
worker tree and the worker allocation fails, the command is appended to the
root queue with both of its cgroup handles cleared. -/
theorem c9_queue_work_exactly_one (st : WorkerState) (cmd : loop_cmd)
    (allocOk : Bool) :
    totalCmds (loop_queue_work st cmd allocOk).1 = totalCmds st + 1 ∧
    (queue_on_root_worker cmd.blkcg_css = false →
      enqueue_worker (cmd.blkcg_css.getD 0) cmd.id st.workers = none →
      allocOk = false →
      (loop_queue_work st cmd allocOk).1.rootcg_cmd_list
          = st.rootcg_cmd_list ++ [cmd.id] ∧
      (loop_queue_work st cmd allocOk).2.blkcg_css = none ∧
      (loop_queue_work st cmd allocOk).2.memcg_css = none) := by
  constructor
  · unfold loop_queue_work
    split
    · simp [totalCmds]
      omega
    · rcases henq : enqueue_worker (cmd.blkcg_css.getD 0) cmd.id st.workers
        with _ | ws2
      · simp only [henq]
        cases allocOk <;> simp [totalCmds] <;> omega
      · simp only [henq]
        simp [totalCmds, enqueue_worker_sum _ _ _ _ henq]
        omega
  · intro hroot hmiss halloc
    simp only [loop_queue_work, hroot, hmiss, halloc]
    simp

def wsW : WorkerState :=
  { workers := [⟨5, [40], true⟩], rootcg_cmd_list := [41] }

def cmdW : loop_cmd :=
  { id := 42, blkcg_css := some 7, memcg_css := some 9 }

theorem c9_queue_work_exactly_one_witness :
    totalCmds (loop_queue_work wsW cmdW false).1 = totalCmds wsW + 1 ∧
    (loop_queue_work wsW cmdW false).1.rootcg_cmd_list = [41] ++ [42] ∧
    (loop_queue_work wsW cmdW false).2.blkcg_css = none :=
  ⟨(c9_queue_work_exactly_one wsW cmdW false).1,
   ((c9_queue_work_exactly_one wsW cmdW false).2
      (by decide) (by decide) rfl).1,
   ((c9_queue_work_exactly_one wsW cmdW false).2
      (by decide) (by decide) rfl).2.1⟩

/-- Truncating C assignment of an unsigned value to a signed 32-bit int. -/
def toS32 (x : Nat) : Int :=
  if x % 2 ^ 32 < 2 ^ 31 then ((x % 2 ^ 32 : Nat) : Int)
  else ((x % 2 ^ 32 : Nat) : Int) - 2 ^ 32

/-- C conversion of a signed value to __u64 (two's complement). -/
def intToU64 (i : Int) : Nat := (i % 2 ^ 64).toNat

/-- C conversion of a signed value to __u32 (two's complement). -/
def intToU32 (i : Int) : Nat := (i % 2 ^ 32).toNat

/-- The fixed-size LO_NAME_SIZE byte copy of a name field (plain memcpy). -/
def take_name (l : List Nat) : List Nat :=
  (l ++ List.replicate LO_NAME_SIZE 0).take LO_NAME_SIZE

/-- The fixed-size LO_KEY_SIZE byte copy of a key field. -/
def take_key (l : List Nat) : List Nat :=
  (l ++ List.replicate LO_KEY_SIZE 0).take LO_KEY_SIZE

/-- Modelled from the spec: struct loop_info of the uapi header (not in the
excerpt), for a 64-bit kernel — the build in which the cited compat path
exists.  int fields are signed 32-bit (Int); __kernel_old_dev_t and
unsigned long fields are 64-bit unsigned (Nat). -/
structure loop_info where
  lo_number : Int
  lo_device : Nat
  lo_inode : Nat
  lo_rdevice : Nat
  lo_offset : Int
  lo_encrypt_type : Int
  lo_encrypt_key_size : Int
  lo_flags : Int
  lo_name : List Nat
  lo_encrypt_key : List Nat
  lo_init0 : Nat
  lo_init1 : Nat
deriving DecidableEq, Repr

/-- struct compat_loop_info of loop.c lines 1954-1967: compat_int_t fields
are signed 32-bit (Int); compat_dev_t fields are 16-bit unsigned and
compat_ulong_t fields 32-bit unsigned (Nat). -/
structure compat_loop_info where
  lo_number : Int
  lo_device : Nat
  lo_inode : Nat
  lo_rdevice : Nat
  lo_offset : Int
  lo_encrypt_type : Int
  lo_encrypt_key_size : Int
  lo_flags : Int
  lo_name : List Nat
  lo_encrypt_key : List Nat
  lo_init0 : Nat
  lo_init1 : Nat
deriving DecidableEq, Repr

/-- The field-filling part of loop_info64_to_old (loop.c lines 1720-1735):
each assignment with the C truncation of its target type. -/
def old_of (info64 : loop_info64) : loop_info :=
  { lo_number := toS32 info64.lo_number,
    lo_device := info64.lo_device % 2 ^ 64,
    lo_inode := info64.lo_inode % 2 ^ 64,
    lo_rdevice := info64.lo_rdevice % 2 ^ 64,
    lo_offset := toS32 info64.lo_offset,
    lo_encrypt_type := toS32 info64.lo_encrypt_type,
    lo_encrypt_key_size := toS32 info64.lo_encrypt_key_size,
    lo_flags := toS32 info64.lo_flags,
    lo_name :=
      if toS32 info64.lo_encrypt_type = (LO_CRYPT_CRYPTOAPI : Int) then
        take_name info64.lo_crypt_name
      else take_name info64.lo_file_name,
    lo_encrypt_key := take_key info64.lo_encrypt_key,
    lo_init0 := info64.lo_init0 % 2 ^ 64,
    lo_init1 := info64.lo_init1 % 2 ^ 64 }

/-- The truncation check of loop_info64_to_old (loop.c lines 1737-1742); the
int lo_offset is compared against the __u64 field under C's usual arithmetic
conversion (sign extension to u64). -/
def old_overflow_check (info64 : loop_info64) : Prop :=
  (old_of info64).lo_device ≠ info64.lo_device ∨
  (old_of info64).lo_rdevice ≠ info64.lo_rdevice ∨
  (old_of info64).lo_inode ≠ info64.lo_inode ∨
  intToU64 (old_of info64).lo_offset ≠ info64.lo_offset

instance (info64 : loop_info64) : Decidable (old_overflow_check info64) := by
  unfold old_overflow_check
  infer_instance

/-- loop_info64_to_old of loop.c lines 1717-1745. -/
def loop_info64_to_old (info64 : loop_info64) : Except Errno loop_info :=
  if old_overflow_check info64 then Except.error Errno.EOVERFLOW
  else Except.ok (old_of info64)

/-- loop_info64_from_old of loop.c lines 1695-1715. -/
def loop_info64_from_old (info : loop_info) : loop_info64 :=
  { lo_number := intToU32 info.lo_number,
    lo_device := info.lo_device % 2 ^ 64,
    lo_inode := info.lo_inode % 2 ^ 64,
    lo_rdevice := info.lo_rdevice % 2 ^ 64,
    lo_offset := intToU64 info.lo_offset,
    lo_sizelimit := 0,
    lo_encrypt_type := intToU32 info.lo_encrypt_type,
    lo_encrypt_key_size := intToU32 info.lo_encrypt_key_size,
    lo_flags := intToU32 info.lo_flags,
    lo_file_name :=
      if info.lo_encrypt_type = (LO_CRYPT_CRYPTOAPI : Int) then
        List.replicate LO_NAME_SIZE 0
      else take_name info.lo_name,
    lo_crypt_name :=
      if info.lo_encrypt_type = (LO_CRYPT_CRYPTOAPI : Int) then
        take_name info.lo_name
      else List.replicate LO_NAME_SIZE 0,
    lo_encrypt_key := take_key info.lo_encrypt_key,
    lo_init0 := info.lo_init0 % 2 ^ 64,
    lo_init1 := info.lo_init1 % 2 ^ 64 }

/-- The field-filling part of loop_info64_to_compat (loop.c lines 2012-2027). -/
def compat_of (info64 : loop_info64) : compat_loop_info :=
  { lo_number := toS32 info64.lo_number,
    lo_device := info64.lo_device % 2 ^ 16,
    lo_inode := info64.lo_inode % 2 ^ 32,
    lo_rdevice := info64.lo_rdevice % 2 ^ 16,
    lo_offset := toS32 info64.lo_offset,
    lo_encrypt_type := toS32 info64.lo_encrypt_type,
    lo_encrypt_key_size := toS32 info64.lo_encrypt_key_size,
    lo_flags := toS32 info64.lo_flags,
    lo_name :=
      if toS32 info64.lo_encrypt_type = (LO_CRYPT_CRYPTOAPI : Int) then
        take_name info64.lo_crypt_name
      else take_name info64.lo_file_name,
    lo_encrypt_key := take_key info64.lo_encrypt_key,
    lo_init0 := info64.lo_init0 % 2 ^ 32,
    lo_init1 := info64.lo_init1 % 2 ^ 32 }

/-- The truncation check of loop_info64_to_compat (loop.c lines 2029-2036):
in addition to the fields checked by the native legacy path, the two lo_init
words (compat_ulong_t, 32-bit) are checked. -/
def compat_overflow_check (info64 : loop_info64) : Prop :=
  (compat_of info64).lo_device ≠ info64.lo_device ∨
  (compat_of info64).lo_rdevice ≠ info64.lo_rdevice ∨
  (compat_of info64).lo_inode ≠ info64.lo_inode ∨
  intToU64 (compat_of info64).lo_offset ≠ info64.lo_offset ∨
  (compat_of info64).lo_init0 ≠ info64.lo_init0 ∨
  (compat_of info64).lo_init1 ≠ info64.lo_init1

instance (info64 : loop_info64) : Decidable (compat_overflow_check info64) := by
  unfold compat_overflow_check
  infer_instance

/-- loop_info64_to_compat of loop.c lines 2006-2041 (the copy_to_user step
elided). -/
def loop_info64_to_compat (info64 : loop_info64) : Except Errno compat_loop_info :=
  if compat_overflow_check info64 then Except.error Errno.EOVERFLOW
  else Except.ok (compat_of info64)

/-- loop_info64_from_compat of loop.c lines 1973-1999 (user copy elided). -/
def loop_info64_from_compat (info : compat_loop_info) : loop_info64 :=
  { lo_number := intToU32 info.lo_number,
    lo_device := info.lo_device,
    lo_inode := info.lo_inode,
    lo_rdevice := info.lo_rdevice,
    lo_offset := intToU64 info.lo_offset,
    lo_sizelimit := 0,
    lo_encrypt_type := intToU32 info.lo_encrypt_type,
    lo_encrypt_key_size := intToU32 info.lo_encrypt_key_size,
    lo_flags := intToU32 info.lo_flags,
    lo_file_name :=
      if info.lo_encrypt_type = (LO_CRYPT_CRYPTOAPI : Int) then
        List.replicate LO_NAME_SIZE 0
      else take_name info.lo_name,
    lo_crypt_name :=
      if info.lo_encrypt_type = (LO_CRYPT_CRYPTOAPI : Int) then
        take_name info.lo_name
      else List.replicate LO_NAME_SIZE 0,
    lo_encrypt_key := take_key info.lo_encrypt_key,
    lo_init0 := info.lo_init0,
    lo_init1 := info.lo_init1 }

/-- The numeric fields of a loop_info64 that have a counterpart in the
native legacy structure survive the down-and-back conversion. -/
def old_round_trips (info64 : loop_info64) : Prop :=
  (loop_info64_from_old (old_of info64)).lo_number = info64.lo_number ∧
  (loop_info64_from_old (old_of info64)).lo_device = info64.lo_device ∧
  (loop_info64_from_old (old_of info64)).lo_inode = info64.lo_inode ∧
  (loop_info64_from_old (old_of info64)).lo_rdevice = info64.lo_rdevice ∧
  (loop_info64_from_old (old_of info64)).lo_offset = info64.lo_offset ∧
  (loop_info64_from_old (old_of info64)).lo_encrypt_type
    = info64.lo_encrypt_type ∧
  (loop_info64_from_old (old_of info64)).lo_encrypt_key_size
    = info64.lo_encrypt_key_size ∧
  (loop_info64_from_old (old_of info64)).lo_flags = info64.lo_flags ∧
  (loop_info64_from_old (old_of info64)).lo_init0 = info64.lo_init0 ∧
  (loop_info64_from_old (old_of info64)).lo_init1 = info64.lo_init1

/-- The numeric fields of a loop_info64 that have a counterpart in the
compat structure survive the down-and-back conversion. -/
def compat_round_trips (info64 : loop_info64) : Prop :=
  (loop_info64_from_compat (compat_of info64)).lo_number = info64.lo_number ∧
  (loop_info64_from_compat (compat_of info64)).lo_device = info64.lo_device ∧
  (loop_info64_from_compat (compat_of info64)).lo_inode = info64.lo_inode ∧
  (loop_info64_from_compat (compat_of info64)).lo_rdevice
    = info64.lo_rdevice ∧
  (loop_info64_from_compat (compat_of info64)).lo_offset = info64.lo_offset ∧
  (loop_info64_from_compat (compat_of info64)).lo_encrypt_type
    = info64.lo_encrypt_type ∧
  (loop_info64_from_compat (compat_of info64)).lo_encrypt_key_size
    = info64.lo_encrypt_key_size ∧
  (loop_info64_from_compat (compat_of info64)).lo_flags = info64.lo_flags ∧
  (loop_info64_from_compat (compat_of info64)).lo_init0 = info64.lo_init0 ∧
  (loop_info64_from_compat (compat_of info64)).lo_init1 = info64.lo_init1

/-- Machine-width well-formedness of a loop_info64 (fields hold values of
their declared C widths). -/
def loop_info64_wf (i : loop_info64) : Prop :=
  i.lo_device < 2 ^ 64 ∧ i.lo_inode < 2 ^ 64 ∧ i.lo_rdevice < 2 ^ 64 ∧
  i.lo_offset < 2 ^ 64 ∧ i.lo_number < 2 ^ 32 ∧ i.lo_encrypt_type < 2 ^ 32 ∧
  i.lo_encrypt_key_size < 2 ^ 32 ∧ i.lo_flags < 2 ^ 32 ∧
  i.lo_init0 < 2 ^ 64 ∧ i.lo_init1 < 2 ^ 64

instance (i : loop_info64) : Decidable (loop_info64_wf i) := by
  unfold loop_info64_wf
  infer_instance

theorem intToU32_toS32 (x : Nat) (h : x < 2 ^ 32) : intToU32 (toS32 x) = x := by
  unfold intToU32 toS32
  split_ifs <;> omega

/-- C6: legacy status round-trip.  For every machine-representable 64-bit
status structure, the conversion to the native legacy structure
(loop_info64_to_old) and to the 32-bit compat structure
(loop_info64_to_compat) succeeds exactly when every numeric field having a
legacy counterpart survives the conversion there and back (via
loop_info64_from_old / loop_info64_from_compat) unchanged, and reports
EOVERFLOW exactly when some such field does not round-trip. -/
theorem c6_legacy_status_roundtrip (info64 : loop_info64)
    (h : loop_info64_wf info64) :
    (loop_info64_to_old info64 = Except.ok (old_of info64) ↔
      old_round_trips info64) ∧
    (loop_info64_to_old info64 = Except.error Errno.EOVERFLOW ↔
      ¬ old_round_trips info64) ∧
    (loop_info64_to_compat info64 = Except.ok (compat_of info64) ↔
      compat_round_trips info64) ∧
    (loop_info64_to_compat info64 = Except.error Errno.EOVERFLOW ↔
      ¬ compat_round_trips info64) := by
  obtain ⟨hd, hi, hr, ho, hn, ht, hk, hf, h0, h1⟩ := h
  have hnum := intToU32_toS32 info64.lo_number hn
  have htyp := intToU32_toS32 info64.lo_encrypt_type ht
  have hks := intToU32_toS32 info64.lo_encrypt_key_size hk
  have hfl := intToU32_toS32 info64.lo_flags hf
  have hdev64 : info64.lo_device % 2 ^ 64 = info64.lo_device :=
    Nat.mod_eq_of_lt hd
  have hino64 : info64.lo_inode % 2 ^ 64 = info64.lo_inode :=
    Nat.mod_eq_of_lt hi
  have hrde64 : info64.lo_rdevice % 2 ^ 64 = info64.lo_rdevice :=
    Nat.mod_eq_of_lt hr
  have hin064 : info64.lo_init0 % 2 ^ 64 = info64.lo_init0 :=
    Nat.mod_eq_of_lt h0
  have hin164 : info64.lo_init1 % 2 ^ 64 = info64.lo_init1 :=
    Nat.mod_eq_of_lt h1
  have hrt_old : old_round_trips info64 ↔
      intToU64 (toS32 info64.lo_offset) = info64.lo_offset := by
    unfold old_round_trips loop_info64_from_old old_of
    simp [hnum, htyp, hks, hfl, hdev64, hino64, hrde64, hin064, hin164]
    constructor
    · exact fun hx => hx.2.2.2.1
    · intro hx
      exact ⟨by omega, by omega, by omega, hx, by omega, by omega⟩
  have hchk_old : old_overflow_check info64 ↔
      ¬ intToU64 (toS32 info64.lo_offset) = info64.lo_offset := by
    unfold old_overflow_check old_of
    simp [hdev64, hino64, hrde64]
    constructor
    · rintro (hh | hh | hh | hh)
      · exact absurd hh (by omega)
      · exact absurd hh (by omega)
      · exact absurd hh (by omega)
      · exact hh
    · exact fun hx => Or.inr (Or.inr (Or.inr hx))
  have hrt_compat : compat_round_trips info64 ↔
      (info64.lo_device % 2 ^ 16 = info64.lo_device ∧
       info64.lo_inode % 2 ^ 32 = info64.lo_inode ∧
       info64.lo_rdevice % 2 ^ 16 = info64.lo_rdevice ∧
       intToU64 (toS32 info64.lo_offset) = info64.lo_offset ∧
       info64.lo_init0 % 2 ^ 32 = info64.lo_init0 ∧
       info64.lo_init1 % 2 ^ 32 = info64.lo_init1) := by
    unfold compat_round_trips loop_info64_from_compat compat_of
    simp [hnum, htyp, hks, hfl]
  have hchk_compat : compat_overflow_check info64 ↔
      ¬ (info64.lo_device % 2 ^ 16 = info64.lo_device ∧
         info64.lo_inode % 2 ^ 32 = info64.lo_inode ∧
         info64.lo_rdevice % 2 ^ 16 = info64.lo_rdevice ∧
         intToU64 (toS32 info64.lo_offset) = info64.lo_offset ∧
         info64.lo_init0 % 2 ^ 32 = info64.lo_init0 ∧
         info64.lo_init1 % 2 ^ 32 = info64.lo_init1) := by
    unfold compat_overflow_check compat_of
    simp only []
    constructor
    · intro hc hcj
      rcases hc with hc | hc | hc | hc | hc | hc
      · exact hc hcj.1
      · exact hc hcj.2.2.1
      · exact hc hcj.2.1
      · exact hc hcj.2.2.2.1
      · exact hc hcj.2.2.2.2.1
      · exact hc hcj.2.2.2.2.2
    · intro hncj
      by_contra hnd
      push_neg at hnd
      exact hncj ⟨hnd.1, hnd.2.2.1, hnd.2.1, hnd.2.2.2.1, hnd.2.2.2.2.1,
        hnd.2.2.2.2.2⟩
  refine ⟨?_, ?_, ?_, ?_⟩
  · unfold loop_info64_to_old
    by_cases hc : old_overflow_check info64
    · rw [if_pos hc]
      exact iff_of_false (by simp) (by rw [hrt_old]; exact hchk_old.mp hc)
    · rw [if_neg hc]
      refine iff_of_true rfl (hrt_old.mpr ?_)
      by_contra hne
      exact hc (hchk_old.mpr hne)
  · unfold loop_info64_to_old
    by_cases hc : old_overflow_check info64
    · rw [if_pos hc]
      exact iff_of_true rfl (by rw [hrt_old]; exact hchk_old.mp hc)
    · rw [if_neg hc]
      have hrt : old_round_trips info64 := by
        refine hrt_old.mpr ?_
        by_contra hne
        exact hc (hchk_old.mpr hne)
      exact iff_of_false (by simp) (not_not_intro hrt)
  · unfold loop_info64_to_compat
    by_cases hc : compat_overflow_check info64
    · rw [if_pos hc]
      exact iff_of_false (by simp)
        (by rw [hrt_compat]; exact hchk_compat.mp hc)
    · rw [if_neg hc]
      refine iff_of_true rfl (hrt_compat.mpr ?_)
      by_contra hne
      exact hc (hchk_compat.mpr hne)
  · unfold loop_info64_to_compat
    by_cases hc : compat_overflow_check info64
    · rw [if_pos hc]
      exact iff_of_true rfl (by rw [hrt_compat]; exact hchk_compat.mp hc)
    · rw [if_neg hc]
      have hrt : compat_round_trips info64 := by
        refine hrt_compat.mpr ?_
        by_contra hne
        exact hc (hchk_compat.mpr hne)
      exact iff_of_false (by simp) (not_not_intro hrt)

theorem c6_legacy_status_roundtrip_witness :
    (loop_info64_to_old xorInfo = Except.ok (old_of xorInfo) ↔
      old_round_trips xorInfo) ∧
    (loop_info64_to_old xorInfo = Except.error Errno.EOVERFLOW ↔
      ¬ old_round_trips xorInfo) ∧
    (loop_info64_to_compat xorInfo = Except.ok (compat_of xorInfo) ↔
      compat_round_trips xorInfo) ∧
    (loop_info64_to_compat xorInfo = Except.error Errno.EOVERFLOW ↔
      ¬ compat_round_trips xorInfo) :=
  c6_legacy_status_roundtrip xorInfo (by decide)
